import Mathlib

/-!
Shallow embedding of the matchhub repository (a Streamlit hockey companion
app storing flat JSON files) and proofs about its claims.

Conventions of the embedding:
* Python dicts read from / written to JSON files are modelled as Lean
  structures whose fields mirror the keys the code reads and writes;
  `dict.get(k)` on a possibly-missing key becomes an `Option` field,
  `dict.get(k, d)` becomes `Option.getD`.
* `datetime.now()` is effectful, so every function that stamps a time takes
  the timestamp as an explicit `now : String` argument.
* The filesystem is modelled as a map from paths to file contents;
  `json.dumps` / `json.loads` are a bijection on the JSON tree, so a JSON
  file's content is stored as the `Json` value itself.
* Python string helpers are embedded over ASCII: `.lower()` maps
  `Char.toLower`, `.strip()` is `String.trim`, `.replace` is
  `String.replace`.
-/

namespace MatchHub

/-- Python `x or default` for an optional string: `None` and `""` are falsy. -/
def pyOr (o : Option String) (d : String) : String :=
  match o with
  | none => d
  | some s => if s = "" then d else s

/-- Python `str.lower()` (ASCII fragment). -/
def pyLower (s : String) : String := s.map Char.toLower

/-- Whether an optional-string argument is truthy in Python
(`if user and ...`): present and non-empty. -/
def truthy (o : Option String) : Bool :=
  match o with
  | none => false
  | some s => decide (s ≠ "")

/-- Lexicographic code-point order on character lists: Python string
comparison. -/
def charListLe : List Char → List Char → Bool
  | [], _ => true
  | _ :: _, [] => false
  | a :: as, b :: bs =>
    if a < b then true
    else if b < a then false
    else charListLe as bs

/-- Python `s1 <= s2` on strings. -/
def str_le (a b : String) : Bool := charListLe a.data b.data

/-- charListLe is reflexive. -/
theorem charListLe_refl : ∀ l : List Char, charListLe l l = true
  | [] => rfl
  | a :: as => by
    simp only [charListLe, if_neg (lt_irrefl a)]
    exact charListLe_refl as

/-- charListLe is total. -/
theorem charListLe_total : ∀ a b : List Char,
    charListLe a b = true ∨ charListLe b a = true
  | [], _ => Or.inl rfl
  | _ :: _, [] => Or.inr rfl
  | a :: as, b :: bs => by
    rcases lt_trichotomy a b with h | h | h
    · exact Or.inl (by simp [charListLe, h])
    · subst h
      simp only [charListLe, if_neg (lt_irrefl a)]
      exact charListLe_total as bs
    · exact Or.inr (by simp [charListLe, h])

/-- charListLe is transitive. -/
theorem charListLe_trans : ∀ a b c : List Char,
    charListLe a b = true → charListLe b c = true → charListLe a c = true
  | [], _, _ => fun _ _ => rfl
  | _ :: _, [], _ => fun h _ => by simp [charListLe] at h
  | _ :: _, _ :: _, [] => fun _ h => by simp [charListLe] at h
  | a :: as, b :: bs, c :: cs => by
    intro h₁ h₂
    rcases lt_trichotomy a b with h1 | h1 | h1
    · rcases lt_trichotomy b c with h2 | h2 | h2
      · simp [charListLe, lt_trans h1 h2]
      · subst h2
        simp [charListLe, h1]
      · simp [charListLe, if_neg (asymm h2), if_pos h2] at h₂
    · subst h1
      simp only [charListLe, if_neg (lt_irrefl a)] at h₁
      rcases lt_trichotomy a c with h2 | h2 | h2
      · simp [charListLe, h2]
      · subst h2
        simp only [charListLe, if_neg (lt_irrefl a)] at h₂ ⊢
        exact charListLe_trans as bs cs h₁ h₂
      · simp [charListLe, if_neg (asymm h2), if_pos h2] at h₂
    · simp [charListLe, if_neg (asymm h1), if_pos h1] at h₁

/-- str_le is reflexive. -/
theorem str_le_refl (a : String) : str_le a a = true := charListLe_refl a.data

/-- str_le is total. -/
theorem str_le_total (a b : String) :
    str_le a b = true ∨ str_le b a = true := charListLe_total a.data b.data

/-- str_le is transitive. -/
theorem str_le_trans {a b c : String} (h₁ : str_le a b = true)
    (h₂ : str_le b c = true) : str_le a c = true :=
  charListLe_trans a.data b.data c.data h₁ h₂

/-- A JSON value, as produced by `json.loads` / consumed by `json.dumps`.
Numbers are restricted to the integers the app actually stores. -/
inductive Json where
  | null : Json
  | bool (b : Bool) : Json
  | num (n : Int) : Json
  | str (s : String) : Json
  | arr (elems : List Json) : Json
  | obj (fields : List (String × Json)) : Json

/-- A Python value appearing in drill answers and coaching-rule conditions:
`None`, an `int`, or a `str`. -/
inductive PyVal where
  | none : PyVal
  | int (n : Int) : PyVal
  | str (s : String) : PyVal
deriving DecidableEq

/-! ## src/academy/sessions.py : session model and lifecycle -/

/-- The `game` sub-dict of a session (src/academy/sessions.py, create_session). -/
structure GameCtx where
  date : String
  league : String
  home : String
  away : String
deriving DecidableEq

/-- The `pre` block written by create_session. -/
structure PreBlock where
  goal : String
  confidence : Int
  timestamp : String
deriving DecidableEq

/-- One check-in entry appended by add_checkin. -/
structure Checkin where
  phase : String
  timestamp : String
  answers : List (String × PyVal)
  feedback : String
  next_task : String
deriving DecidableEq

/-- The `post` block written by complete_session. -/
structure PostBlock where
  summary : String
  unclear : String
  next_module : String
  helpfulness : Int
  timestamp : String
deriving DecidableEq

/-- A session dict as created by create_session; `post` is `none` while the
session still carries the initial empty `post` dict. -/
structure Session where
  session_id : String
  user : String
  game : GameCtx
  module_id : String
  drill_id : String
  pre : PreBlock
  checkins : List Checkin
  post : Option PostBlock
  state : String
  created_at : String
  updated_at : String
deriving DecidableEq

/-- src/academy/sessions.py create_session (lines 8-53): builds the new
session dict; the state starts as "active". -/
def create_session (user date league home away module_id drill_id goal : String)
    (confidence : Int) (now : String) : Session :=
  { session_id := date ++ "_" ++ home.replace " " "_" ++ "_vs_"
      ++ away.replace " " "_" ++ "_" ++ user ++ "_" ++ module_id ++ "_" ++ drill_id
    user := user
    game := { date := date, league := league, home := home, away := away }
    module_id := module_id
    drill_id := drill_id
    pre := { goal := goal, confidence := confidence, timestamp := now }
    checkins := []
    post := none
    state := "active"
    created_at := now
    updated_at := now }

/-- src/academy/sessions.py save_session (lines 66-73): refreshes updated_at. -/
def save_session (session : Session) (now : String) : Session :=
  { session with updated_at := now }

/-- src/academy/sessions.py add_checkin (lines 76-87): appends one check-in. -/
def add_checkin (session : Session) (phase : String)
    (answers : List (String × PyVal)) (feedback next_task now : String) : Session :=
  { session with
      checkins := session.checkins
        ++ [{ phase := phase, timestamp := now, answers := answers,
              feedback := feedback, next_task := next_task }] }

/-- src/academy/sessions.py complete_session (lines 90-100): writes the post
block and sets the state to "done". -/
def complete_session (session : Session) (summary unclear next_module : String)
    (helpfulness : Int) (now : String) : Session :=
  { session with
      post := some { summary := summary, unclear := unclear,
                     next_module := next_module, helpfulness := helpfulness,
                     timestamp := now }
      state := "done" }

/-- src/academy/pages/session_trainer_page.py lines 218-224: the trainer
page's abort button sets the state to "cancelled". -/
def abort_session (session : Session) : Session :=
  { session with state := "cancelled" }

/-- Sessions reachable by any sequence of the mutating operations, starting
from create_session. -/
inductive ReachableSession : Session → Prop where
  | create (user date league home away module_id drill_id goal : String)
      (confidence : Int) (now : String) :
      ReachableSession (create_session user date league home away module_id
        drill_id goal confidence now)
  | save (s : Session) (now : String) :
      ReachableSession s → ReachableSession (save_session s now)
  | checkin (s : Session) (phase : String) (answers : List (String × PyVal))
      (feedback next_task now : String) :
      ReachableSession s →
      ReachableSession (add_checkin s phase answers feedback next_task now)
  | complete (s : Session) (summary unclear next_module : String)
      (helpfulness : Int) (now : String) :
      ReachableSession s →
      ReachableSession (complete_session s summary unclear next_module helpfulness now)
  | abort (s : Session) :
      ReachableSession s → ReachableSession (abort_session s)

/-- C1: create_session creates the session in state "active"; add_checkin
appends a check-in and leaves the state unchanged; complete_session sets the
state to "done"; the trainer page's abort sets it to "cancelled"; hence every
session reachable by any sequence of these operations has state "active",
"done", or "cancelled". -/
theorem session_lifecycle_states :
    (∀ user date league home away module_id drill_id goal confidence now,
      (create_session user date league home away module_id drill_id goal
        confidence now).state = "active")
    ∧ (∀ s phase answers feedback next_task now,
        (add_checkin s phase answers feedback next_task now).state = s.state
        ∧ (add_checkin s phase answers feedback next_task now).checkins
            = s.checkins ++ [{ phase := phase, timestamp := now, answers := answers,
                               feedback := feedback, next_task := next_task }])
    ∧ (∀ s summary unclear next_module helpfulness now,
        (complete_session s summary unclear next_module helpfulness now).state = "done")
    ∧ (∀ s, (abort_session s).state = "cancelled")
    ∧ (∀ s, ReachableSession s →
        s.state = "active" ∨ s.state = "done" ∨ s.state = "cancelled") := by
  refine ⟨fun _ _ _ _ _ _ _ _ _ _ => rfl,
          fun _ _ _ _ _ _ => ⟨rfl, rfl⟩,
          fun _ _ _ _ _ _ => rfl,
          fun _ => rfl, ?_⟩
  intro s h
  induction h with
  | create => exact Or.inl rfl
  | save s now _ ih => exact ih
  | checkin s phase answers feedback next_task now _ ih => exact ih
  | complete => exact Or.inr (Or.inl rfl)
  | abort => exact Or.inr (Or.inr rfl)

/-- Witness for C1: a concrete reachable session (created, checked in,
then aborted) has one of the three lifecycle states. -/
theorem session_lifecycle_states_witness :
    (abort_session (add_checkin
        (create_session "otso" "2026-01-02" "DEL" "ERC Ingolstadt"
          "Adler Mannheim" "A1" "A1_D1" "" 3 "t0")
        "P1" [] "" "" "t1")).state = "active"
    ∨ (abort_session (add_checkin
        (create_session "otso" "2026-01-02" "DEL" "ERC Ingolstadt"
          "Adler Mannheim" "A1" "A1_D1" "" 3 "t0")
        "P1" [] "" "" "t1")).state = "done"
    ∨ (abort_session (add_checkin
        (create_session "otso" "2026-01-02" "DEL" "ERC Ingolstadt"
          "Adler Mannheim" "A1" "A1_D1" "" 3 "t0")
        "P1" [] "" "" "t1")).state = "cancelled" :=
  session_lifecycle_states.2.2.2.2 _
    (ReachableSession.abort _
      (ReachableSession.checkin _ "P1" [] "" "" "t1"
        (ReachableSession.create "otso" "2026-01-02" "DEL" "ERC Ingolstadt"
          "Adler Mannheim" "A1" "A1_D1" "" 3 "t0")))

/-! ## src/del_fetch.py : cache files -/

/-- A flat filesystem of JSON files: path to parsed content.
`json.dumps` and `json.loads` are modelled as the identity pair on `Json`. -/
abbrev FS := String → Option Json

/-- Overwriting `path.write_text(...)`: the file at the path is fully
replaced, other paths are untouched. -/
def fsWrite (fs : FS) (path : String) (v : Json) : FS :=
  fun p => if p = path then some v else fs p

/-- src/del_fetch.py CacheWrite (lines 57-60). -/
structure CacheWrite where
  path : String
  updated_at : String
deriving DecidableEq

/-- src/del_fetch.py wrap helper (lines 77-78). -/
def wrap (updated_at : String) (data : Json) : Json :=
  Json.obj [("updated_at", Json.str updated_at), ("data", data)]

/-- src/del_fetch.py write_cache (lines 81-85): writes the wrapped data to
the path and returns the CacheWrite record. -/
def write_cache (fs : FS) (path : String) (data : Json) (now : String) :
    FS × CacheWrite :=
  (fsWrite fs path (wrap now data), { path := path, updated_at := now })

/-- src/del_fetch.py read_cache (lines 88-91): reads the file back, `none`
when it does not exist. -/
def read_cache (fs : FS) (path : String) : Option Json := fs path

/-- C7: after write_cache, reading the path back yields exactly the wrapper
object whose "updated_at" is the timestamp returned in the CacheWrite and
whose "data" is the written data — over an arbitrary prior filesystem, so no
content of any earlier cache write survives at that path. -/
theorem write_cache_read_roundtrip (fs : FS) (path : String) (data : Json)
    (now : String) :
    read_cache (write_cache fs path data now).1 path
      = some (Json.obj [("updated_at", Json.str now), ("data", data)])
    ∧ (write_cache fs path data now).2.updated_at = now
    ∧ (write_cache fs path data now).2.path = path := by
  refine ⟨?_, rfl, rfl⟩
  simp [read_cache, write_cache, fsWrite, wrap]

/-! ## src/academy/curriculum.py, src/academy/sessions.py, src/storage.py :
loaders and their missing-file defaults -/

/-- src/academy/curriculum.py load_curriculum (lines 7-13): a missing file
yields the empty curriculum, otherwise the parsed JSON. -/
def load_curriculum (fs : FS) (path : String) : Json :=
  match fs path with
  | none => Json.obj [("tracks", Json.arr [])]
  | some j => j

/-- The filter applied inside the list_sessions loop
(src/academy/sessions.py lines 114-118): a session is skipped when the user
argument is truthy and differs, or the module argument is truthy and
differs. -/
def session_keep (user? module? : Option String) (s : Session) : Bool :=
  if truthy user? && decide (s.user ≠ user?.getD "") then false
  else if truthy module? && decide (s.module_id ≠ module?.getD "") then false
  else true

/-- The descending created_at comparison of the list_sessions sort
(`key=lambda s: s.get("created_at", ""), reverse=True`). -/
def created_desc (a b : Session) : Bool :=
  str_le b.created_at a.created_at

/-- `created_desc` as a relation for the sort. -/
def CreatedDesc (a b : Session) : Prop := created_desc a b = true

instance : DecidableRel CreatedDesc :=
  fun a b => inferInstanceAs (Decidable (created_desc a b = true))

instance : IsTotal Session CreatedDesc :=
  ⟨fun a b => by
    rcases str_le_total a.created_at b.created_at with h | h
    · exact Or.inr h
    · exact Or.inl h⟩

instance : IsTrans Session CreatedDesc :=
  ⟨fun _ _ _ h₁ h₂ => str_le_trans h₂ h₁⟩

/-- src/academy/sessions.py list_sessions (lines 103-126): an absent
directory yields `[]`; otherwise the readable session files (unreadable ones
are `none` and skipped) are filtered and sorted by created_at descending.
Python's sort is stable, and a stable sorted permutation is unique, so the
structurally recursive stable insertion sort produces the same list. -/
def list_sessions (dirExists : Bool) (files : List (Option Session))
    (user? module? : Option String) : List Session :=
  if dirExists then
    List.insertionSort CreatedDesc
      ((files.filterMap id).filter (session_keep user? module?))
  else []

/-- src/storage.py list_submissions (lines 38-41): an absent directory
yields `[]`; otherwise the file names sorted descending. -/
def list_submissions (dirExists : Bool) (files : List String) : List String :=
  if dirExists then files.mergeSort (fun a b => decide (b ≤ a)) else []

/-- C3: when the backing file or directory is missing, every loader returns
the empty structure: load_curriculum the empty-tracks object, list_sessions
the empty list, list_submissions the empty list. -/
theorem loaders_default_empty (fs : FS) (path : String) (h : fs path = none)
    (files : List (Option Session)) (user? module? : Option String)
    (names : List String) :
    load_curriculum fs path = Json.obj [("tracks", Json.arr [])]
    ∧ list_sessions false files user? module? = []
    ∧ list_submissions false names = [] := by
  refine ⟨?_, rfl, rfl⟩
  simp [load_curriculum, h]

/-- Witness for C3 at a concrete empty filesystem and missing directories. -/
theorem loaders_default_empty_witness :
    load_curriculum (fun _ => none) "data/academy/curriculum.json"
        = Json.obj [("tracks", Json.arr [])]
    ∧ list_sessions false [] (some "otso") none = []
    ∧ list_submissions false ["a.json"] = [] :=
  loaders_default_empty (fun _ => none) "data/academy/curriculum.json" rfl
    [] (some "otso") none ["a.json"]

/-! ## src/storage.py : save_submission -/

/-- The `game` sub-dict of a submission payload, each key possibly absent. -/
structure SubGame where
  date : Option String
  home : Option String
  away : Option String
deriving DecidableEq

/-- A submission payload: the keys save_submission reads, plus the rest of
the dict (mood ratings etc.) opaque in `extra`. -/
structure SubmissionPayload where
  user : Option String
  game : Option SubGame
  extra : Json

/-- The file name computed by src/storage.py save_submission (lines 24-30):
YYYY-MM-DD__HOME-vs-AWAY__user.json, from the payload's user and game
fields only. -/
def submission_fname (payload : SubmissionPayload) : String :=
  let user := pyLower (pyOr payload.user "unknown").trim
  let game := payload.game.getD { date := none, home := none, away := none }
  let d := (pyOr game.date "unknown-date").replace ":" "-"
  let home := (pyOr game.home "home").replace " " "_"
  let away := (pyOr game.away "away").replace " " "_"
  d ++ "__" ++ home ++ "-vs-" ++ away ++ "__" ++ user ++ ".json"

/-- A directory of submission files: path to (payload, submitted_at). -/
abbrev SubFS := String → Option (SubmissionPayload × String)

/-- src/storage.py save_submission (lines 17-35): stamps submitted_at and
overwrites the file at the computed path; returns the new store and the
path. -/
def save_submission (fs : SubFS) (base_dir : String)
    (payload : SubmissionPayload) (now : String) : SubFS × String :=
  let path := base_dir ++ "/" ++ submission_fname payload
  (fun p => if p = path then some (payload, now) else fs p, path)

/-- C5: the submission path depends only on the payload's user and game
(date, home, away) fields; two payloads agreeing on those four fields write
to the same path, so the later write fully overwrites the earlier one. -/
theorem save_submission_path_overwrite (p₁ p₂ : SubmissionPayload)
    (hu : p₁.user = p₂.user)
    (hd : (p₁.game.getD { date := none, home := none, away := none }).date
        = (p₂.game.getD { date := none, home := none, away := none }).date)
    (hh : (p₁.game.getD { date := none, home := none, away := none }).home
        = (p₂.game.getD { date := none, home := none, away := none }).home)
    (ha : (p₁.game.getD { date := none, home := none, away := none }).away
        = (p₂.game.getD { date := none, home := none, away := none }).away) :
    submission_fname p₁ = submission_fname p₂
    ∧ ∀ fs base_dir now₁ now₂,
        (save_submission (save_submission fs base_dir p₁ now₁).1 base_dir p₂ now₂).1
            ((save_submission fs base_dir p₁ now₁).2)
          = some (p₂, now₂) := by
  have hf : submission_fname p₁ = submission_fname p₂ := by
    simp only [submission_fname, hu, hd, hh, ha]
  refine ⟨hf, fun fs base_dir now₁ now₂ => ?_⟩
  simp [save_submission, hf]

/-- A concrete payload used in the C5 witness. -/
def subPayloadA : SubmissionPayload :=
  { user := some "Otso"
    game := some { date := some "2026-01-02", home := some "ERC Ingolstadt",
                   away := some "Adler Mannheim" }
    extra := Json.obj [("mood", Json.num 4)] }

/-- A second concrete payload with the same user and game but different
contents. -/
def subPayloadB : SubmissionPayload :=
  { user := some "Otso"
    game := some { date := some "2026-01-02", home := some "ERC Ingolstadt",
                   away := some "Adler Mannheim" }
    extra := Json.obj [("mood", Json.num 2)] }

/-- Witness for C5: two concrete submissions for the same (user, game) get
the same file name, and the second write is what the first path holds. -/
theorem save_submission_path_overwrite_witness :
    submission_fname subPayloadA = submission_fname subPayloadB
    ∧ (save_submission
          (save_submission (fun _ => none) "data/submissions" subPayloadA "t1").1
          "data/submissions" subPayloadB "t2").1
        ((save_submission (fun _ => none) "data/submissions" subPayloadA "t1").2)
      = some (subPayloadB, "t2") :=
  ⟨(save_submission_path_overwrite subPayloadA subPayloadB rfl rfl rfl rfl).1,
   (save_submission_path_overwrite subPayloadA subPayloadB rfl rfl rfl rfl).2
     (fun _ => none) "data/submissions" "t1" "t2"⟩

/-! ## src/academy/curriculum.py : in-memory curriculum lookups -/

/-- A drill entry of a module. -/
structure Drill where
  id : String
  title : String
  drill_type : String
deriving DecidableEq

/-- A module of a track. -/
structure Module where
  id : String
  title : String
  drills : List Drill
deriving DecidableEq

/-- A track of the curriculum. -/
structure Track where
  id : String
  title : String
  modules : List Module
deriving DecidableEq

/-- The loaded curriculum tree. -/
structure Curriculum where
  tracks : List Track
deriving DecidableEq

/-- src/academy/curriculum.py get_track (lines 16-21): first track whose id
matches. -/
def get_track (c : Curriculum) (track_id : String) : Option Track :=
  c.tracks.find? (fun t => t.id == track_id)

/-- src/academy/curriculum.py get_module (lines 24-34): Python indexes
`module_id[0]`, which raises IndexError on the empty string; the embedding
makes that error branch explicit. -/
def get_module (c : Curriculum) (module_id : String) :
    Except String (Option Module) :=
  match module_id.data with
  | [] => Except.error "IndexError: string index out of range"
  | ch :: _ =>
    match get_track c (String.mk [ch]) with
    | none => Except.ok none
    | some track => Except.ok (track.modules.find? (fun m => m.id == module_id))

/-- C8: for a non-empty module_id, the first-character index is in bounds and
get_module is total (the IndexError branch is unreachable), and any returned
module has the requested id and lies in the track selected by the first
character of module_id. -/
theorem get_module_spec (c : Curriculum) (module_id : String)
    (h : module_id ≠ "") :
    ∃ ch rest, module_id.data = ch :: rest
    ∧ ∃ r, get_module c module_id = Except.ok r
    ∧ ∀ m, r = some m →
        m.id = module_id
        ∧ ∃ t, get_track c (String.mk [ch]) = some t ∧ m ∈ t.modules := by
  obtain ⟨l⟩ := module_id
  cases l with
  | nil => exact absurd rfl h
  | cons ch rest =>
    refine ⟨ch, rest, rfl, ?_⟩
    simp only [get_module]
    cases ht : get_track ⟨c.tracks⟩ (String.mk [ch]) with
    | none => exact ⟨none, rfl, fun m hm => by cases hm⟩
    | some track =>
      refine ⟨track.modules.find? (fun m => m.id == String.mk (ch :: rest)),
        rfl, fun m hm => ?_⟩
      have hid := List.find?_some hm
      have hmem : m ∈ track.modules := List.mem_of_find?_eq_some hm
      exact ⟨eq_of_beq hid, track, rfl, hmem⟩

/-- A concrete curriculum used in the C8 witness. -/
def currA : Curriculum :=
  { tracks := [
      { id := "A", title := "Defensive Zone",
        modules := [
          { id := "A1", title := "Dreiecke",
            drills := [{ id := "A1_D1", title := "Period Check-in",
                         drill_type := "period_checkin" }] }] }] }

/-- Witness for C8 at module_id "A1" in a concrete curriculum. -/
theorem get_module_spec_witness :
    ∃ ch rest, ("A1" : String).data = ch :: rest
    ∧ ∃ r, get_module currA "A1" = Except.ok r
    ∧ ∀ m, r = some m →
        m.id = "A1"
        ∧ ∃ t, get_track currA (String.mk [ch]) = some t ∧ m ∈ t.modules :=
  get_module_spec currA "A1" (by decide)

/-! ## src/app.py : save_observation -/

/-- The `game` sub-dict of an observation, keys possibly absent. -/
structure ObsGame where
  date : Option String
  home : Option String
  away : Option String
deriving DecidableEq

/-- The observation dict passed to save_observation, with the keys the
function reads. -/
structure Observation where
  user : Option String
  game : Option ObsGame
  period : Option Int
  focus : Option String
  timestamp : Option String
  answers : Option Json

/-- One entry of the "periods" map of an observation file. -/
structure PeriodEntry where
  period : Int
  timestamp : Option String
  answers : Json

/-- The combined observation file per (game, user): shared metadata plus the
"periods" map keyed by the period rendered with `str`. -/
structure ObsFile where
  user : String
  game : ObsGame
  focus : String
  last_updated : String
  periods : List (String × PeriodEntry)

/-- Python `d[k] = v` on an association-list dict: replace the entry in
place when the key is present, else append. -/
def dictInsert {α : Type} (k : String) (v : α) :
    List (String × α) → List (String × α)
  | [] => [(k, v)]
  | (k₂, v₂) :: rest =>
    if k₂ = k then (k, v) :: rest else (k₂, v₂) :: dictInsert k v rest

/-- src/app.py save_observation (lines 136-183), given the already-loaded
existing file (`none` when the file is missing or unreadable): updates the
metadata fields and the entry periods[str(period)], leaving the rest of the
periods map alone. -/
def save_observation (existing : Option ObsFile) (obs : Observation)
    (now : String) : ObsFile :=
  let user := obs.user.getD "unknown"
  let game := obs.game.getD { date := none, home := none, away := none }
  let period := obs.period.getD 1
  let base := existing.getD
    { user := "", game := { date := none, home := none, away := none },
      focus := "", last_updated := "", periods := [] }
  { user := user
    game := game
    focus := obs.focus.getD "CENTER_TRIANGLES"
    last_updated := now
    periods := dictInsert (toString period)
      { period := period, timestamp := obs.timestamp,
        answers := obs.answers.getD (Json.obj []) }
      base.periods }

/-- Looking up a key after inserting a different key is unchanged. -/
theorem lookup_dictInsert_ne {α : Type} (k q : String) (v : α)
    (l : List (String × α)) (h : q ≠ k) :
    (dictInsert k v l).lookup q = l.lookup q := by
  have hqk : (q == k) = false := beq_eq_false_iff_ne.mpr h
  induction l with
  | nil => simp [dictInsert, List.lookup, hqk]
  | cons head tail ih =>
    obtain ⟨k₂, v₂⟩ := head
    by_cases hk : k₂ = k
    · subst hk
      simp [dictInsert, List.lookup, hqk]
    · simp only [dictInsert, if_neg hk, List.lookup]
      cases hq : q == k₂ <;> simp [ih]

/-- Looking up the inserted key yields the inserted value. -/
theorem lookup_dictInsert_self {α : Type} (k : String) (v : α)
    (l : List (String × α)) :
    (dictInsert k v l).lookup k = some v := by
  induction l with
  | nil => simp [dictInsert, List.lookup]
  | cons head tail ih =>
    obtain ⟨k₂, v₂⟩ := head
    by_cases hk : k₂ = k
    · subst hk
      simp [dictInsert, List.lookup]
    · simp only [dictInsert, if_neg hk, List.lookup]
      have : (k == k₂) = false := by
        simp [beq_eq_false_iff_ne]
        exact fun he => hk he.symm
      simp [this, ih]

/-- C4: saving an observation for period p into an existing observation file
replaces only periods[str(p)] (and the shared metadata); every other period
key q of the existing file is unchanged. -/
theorem save_observation_frame (existing : ObsFile) (obs : Observation)
    (now : String) (q : String) (h : q ≠ toString (obs.period.getD 1)) :
    (save_observation (some existing) obs now).periods.lookup q
      = existing.periods.lookup q
    ∧ (save_observation (some existing) obs now).periods.lookup
        (toString (obs.period.getD 1))
      = some { period := obs.period.getD 1, timestamp := obs.timestamp,
               answers := obs.answers.getD (Json.obj []) } := by
  constructor
  · simpa [save_observation] using
      lookup_dictInsert_ne (toString (obs.period.getD 1)) q _
        existing.periods h
  · simpa [save_observation] using
      lookup_dictInsert_self (toString (obs.period.getD 1)) _ existing.periods

/-- A concrete existing observation file used in the C4 witness. -/
def obsFileEx : ObsFile :=
  { user := "otso"
    game := { date := some "2026-01-02", home := some "ERC_Ingolstadt",
              away := some "Adler_Mannheim" }
    focus := "CENTER_TRIANGLES"
    last_updated := "t0"
    periods := [("1", { period := 1, timestamp := some "t0",
                        answers := Json.obj [("q1", Json.str "low")] }),
                ("2", { period := 2, timestamp := some "t1",
                        answers := Json.obj [("q1", Json.str "mid")] })] }

/-- A concrete observation for period 2 used in the C4 witness. -/
def obsP2 : Observation :=
  { user := some "otso"
    game := some { date := some "2026-01-02", home := some "ERC_Ingolstadt",
                   away := some "Adler_Mannheim" }
    period := some 2
    focus := some "CENTER_TRIANGLES"
    timestamp := some "t2"
    answers := some (Json.obj [("q1", Json.str "high")]) }

/-- Witness for C4: resubmitting period 2 leaves period 1 untouched and
replaces period 2. -/
theorem save_observation_frame_witness :
    (save_observation (some obsFileEx) obsP2 "t2").periods.lookup "1"
      = obsFileEx.periods.lookup "1"
    ∧ (save_observation (some obsFileEx) obsP2 "t2").periods.lookup
        (toString ((obsP2.period).getD 1))
      = some { period := (obsP2.period).getD 1, timestamp := obsP2.timestamp,
               answers := (obsP2.answers).getD (Json.obj []) } :=
  save_observation_frame obsFileEx obsP2 "t2" "1" (by decide)

/-! ## src/academy/drill_engine.py : coaching-rule evaluation -/

/-- A coaching-rule condition (`rule.get("condition", {})`): each key may be
absent; an absent "value" is Python None, i.e. `PyVal.none`. -/
structure Cond where
  field : Option String
  operator : Option String
  value : PyVal
deriving DecidableEq

/-- One coaching rule from the drill configuration. -/
structure CoachingRule where
  condition : Cond
  feedback : String
  next_task : String
deriving DecidableEq

/-- `answers.get(field)`: `None` when the field key is absent or the field
itself is None. -/
def answer_get (answers : List (String × PyVal)) (f : Option String) : PyVal :=
  match f with
  | none => PyVal.none
  | some k => (answers.lookup k).getD PyVal.none

/-- Python `==` on the values appearing in answers: equal only within the
same type, never an error. -/
def pyEqB : PyVal → PyVal → Bool
  | PyVal.none, PyVal.none => true
  | PyVal.int a, PyVal.int b => a == b
  | PyVal.str a, PyVal.str b => a == b
  | _, _ => false

/-- Python `<=`: defined within ints and within strings (lexicographic),
a TypeError (`none`) across types or against None. -/
def pyLeB : PyVal → PyVal → Option Bool
  | PyVal.int a, PyVal.int b => some (decide (a ≤ b))
  | PyVal.str a, PyVal.str b => some (decide (a ≤ b))
  | _, _ => none

/-- Python `>=`. -/
def pyGeB : PyVal → PyVal → Option Bool
  | PyVal.int a, PyVal.int b => some (decide (b ≤ a))
  | PyVal.str a, PyVal.str b => some (decide (b ≤ a))
  | _, _ => none

/-- Python `<`. -/
def pyLtB : PyVal → PyVal → Option Bool
  | PyVal.int a, PyVal.int b => some (decide (a < b))
  | PyVal.str a, PyVal.str b => some (decide (a < b))
  | _, _ => none

/-- Python `>`. -/
def pyGtB : PyVal → PyVal → Option Bool
  | PyVal.int a, PyVal.int b => some (decide (b < a))
  | PyVal.str a, PyVal.str b => some (decide (b < a))
  | _, _ => none

/-- The condition evaluation of src/academy/drill_engine.py
evaluate_coaching_rules (lines 54-77): the if/elif chain over the operator;
any operator outside the six comparison strings leaves match False; `none`
is a Python TypeError raised by an ordered comparison. -/
def match_rule (answers : List (String × PyVal)) (c : Cond) : Option Bool :=
  let av := answer_get answers c.field
  match c.operator with
  | none => some false
  | some op =>
    if op = "==" then some (pyEqB av c.value)
    else if op = "!=" then some (!pyEqB av c.value)
    else if op = "<=" then pyLeB av c.value
    else if op = ">=" then pyGeB av c.value
    else if op = "<" then pyLtB av c.value
    else if op = ">" then pyGtB av c.value
    else some false

/-- The `\x7bnext_period\x7d` placeholder substitution applied to a matching
rule's next_task (src/academy/drill_engine.py lines 82-87); `int(phase[1])`
raises ValueError when phase is two characters starting with "P" but the
second is not a digit. -/
def next_period_transform (phase nt : String) : Except String String :=
  match phase.data with
  | ['P', c] =>
    if c.isDigit then
      let num : Int := Int.ofNat (c.toNat - 48) + 1
      if num ≠ 0 ∧ num ≤ 3 then
        Except.ok (nt.replace "\x7bnext_period\x7d" (toString num))
      else
        Except.ok (nt.replace "P\x7bnext_period\x7d" "nächste Session")
    else Except.error "ValueError: invalid literal for int()"
  | _ => Except.ok (nt.replace "P\x7bnext_period\x7d" "nächste Session")

/-- The rule loop of evaluate_coaching_rules (lines 54-92), collecting the
feedback and next-task parts in rule order; a raised TypeError or ValueError
propagates. -/
def eval_rules (answers : List (String × PyVal)) (rules : List CoachingRule)
    (phase : String) : Except String (List String × List String) :=
  match rules with
  | [] => Except.ok ([], [])
  | r :: rest =>
    match match_rule answers r.condition with
    | none => Except.error "TypeError: comparison not supported"
    | some b =>
      if b then
        match next_period_transform phase r.next_task with
        | Except.error e => Except.error e
        | Except.ok nt =>
          match eval_rules answers rest phase with
          | Except.error e => Except.error e
          | Except.ok (fbs, nts) =>
            Except.ok ((if r.feedback ≠ "" then r.feedback :: fbs else fbs),
                       (if nt ≠ "" then nt :: nts else nts))
      else eval_rules answers rest phase

/-- src/academy/drill_engine.py evaluate_coaching_rules (lines 39-97):
the collected parts joined with a blank line. -/
def evaluate_coaching_rules (answers : List (String × PyVal))
    (rules : List CoachingRule) (phase : String) :
    Except String (String × String) :=
  match eval_rules answers rules phase with
  | Except.error e => Except.error e
  | Except.ok (fbs, nts) =>
    Except.ok (String.intercalate "\n\n" fbs, String.intercalate "\n\n" nts)

/-- The feedback-part list produced by the loop equals the non-empty
feedbacks of the matching rules, in rule order. -/
theorem eval_rules_feedback_parts (answers : List (String × PyVal))
    (phase : String) (rules : List CoachingRule)
    (hdef : ∀ r ∈ rules, match_rule answers r.condition ≠ none)
    (hnt : ∀ r ∈ rules, match_rule answers r.condition = some true →
        ∃ s, next_period_transform phase r.next_task = Except.ok s) :
    ∃ fbs nts, eval_rules answers rules phase = Except.ok (fbs, nts)
    ∧ fbs = ((rules.filter
          (fun r => decide (match_rule answers r.condition = some true))).map
            (fun r => r.feedback)).filter (fun s => decide (s ≠ "")) := by
  induction rules with
  | nil => exact ⟨[], [], rfl, rfl⟩
  | cons r rest ih =>
    have hdef₂ : ∀ x ∈ rest, match_rule answers x.condition ≠ none :=
      fun x hx => hdef x (List.mem_cons_of_mem r hx)
    have hnt₂ : ∀ x ∈ rest, match_rule answers x.condition = some true →
        ∃ s, next_period_transform phase x.next_task = Except.ok s :=
      fun x hx => hnt x (List.mem_cons_of_mem r hx)
    obtain ⟨fbs, nts, he, hfbs⟩ := ih hdef₂ hnt₂
    cases hm : match_rule answers r.condition with
    | none => exact absurd hm (hdef r (List.mem_cons_self r rest))
    | some b =>
      cases b with
      | false =>
        refine ⟨fbs, nts, ?_, ?_⟩
        · simp only [eval_rules, hm, if_neg Bool.false_ne_true]
          exact he
        · rw [hfbs]
          simp [List.filter, hm]
      | true =>
        obtain ⟨s, hs⟩ := hnt r (List.mem_cons_self r rest) hm
        refine ⟨if r.feedback ≠ "" then r.feedback :: fbs else fbs,
                if s ≠ "" then s :: nts else nts, ?_, ?_⟩
        · simp only [eval_rules, hm, hs, he]
          simp
        · rw [hfbs]
          simp [List.filter, hm]
          by_cases hfb : r.feedback = "" <;> simp [hfb]

/-- C6: whenever every rule's condition comparison is defined (no TypeError)
and the next-task transform of every matching rule succeeds,
evaluate_coaching_rules returns, as its feedback, exactly the
blank-line-join, in rule order, of the non-empty feedback strings of the
rules whose condition matches; and a condition whose operator is none of
the six comparison strings never matches. -/
theorem evaluate_coaching_rules_feedback (answers : List (String × PyVal))
    (rules : List CoachingRule) (phase : String)
    (hdef : ∀ r ∈ rules, match_rule answers r.condition ≠ none)
    (hnt : ∀ r ∈ rules, match_rule answers r.condition = some true →
        ∃ s, next_period_transform phase r.next_task = Except.ok s) :
    (∃ fb nt, evaluate_coaching_rules answers rules phase = Except.ok (fb, nt)
      ∧ fb = String.intercalate "\n\n" (((rules.filter
            (fun r => decide (match_rule answers r.condition = some true))).map
              (fun r => r.feedback)).filter (fun s => decide (s ≠ ""))))
    ∧ ∀ c : Cond, c.operator ∉ ([some "==", some "!=", some "<=", some ">=",
        some "<", some ">"] : List (Option String)) →
        match_rule answers c = some false := by
  constructor
  · obtain ⟨fbs, nts, he, hfbs⟩ := eval_rules_feedback_parts answers phase rules hdef hnt
    refine ⟨String.intercalate "\n\n" fbs, String.intercalate "\n\n" nts, ?_, by rw [hfbs]⟩
    simp only [evaluate_coaching_rules, he]
  · intro c hc
    simp only [List.mem_cons, List.not_mem_nil, or_false, not_or] at hc
    obtain ⟨h1, h2, h3, h4, h5, h6⟩ := hc
    cases hop : c.operator with
    | none => simp [match_rule, hop]
    | some op =>
      have e1 : op ≠ "==" := fun he => h1 (by rw [hop, he])
      have e2 : op ≠ "!=" := fun he => h2 (by rw [hop, he])
      have e3 : op ≠ "<=" := fun he => h3 (by rw [hop, he])
      have e4 : op ≠ ">=" := fun he => h4 (by rw [hop, he])
      have e5 : op ≠ "<" := fun he => h5 (by rw [hop, he])
      have e6 : op ≠ ">" := fun he => h6 (by rw [hop, he])
      simp [match_rule, hop, e1, e2, e3, e4, e5, e6]

/-- Concrete coaching rules used in the C6 witness: one matching rule with
feedback, one matching rule with empty feedback, one non-matching rule, and
one rule with an unknown operator. -/
def rulesEx : List CoachingRule :=
  [ { condition := { field := some "center_pos", operator := some "<=",
                     value := PyVal.int 2 },
      feedback := "Fokus auf das Dreieck.",
      next_task := "Beobachte P\x7bnext_period\x7d erneut." },
    { condition := { field := some "triangle_quality", operator := some "==",
                     value := PyVal.str "stabil" },
      feedback := "", next_task := "" },
    { condition := { field := some "center_pos", operator := some ">",
                     value := PyVal.int 2 },
      feedback := "Nicht erreicht.", next_task := "" },
    { condition := { field := some "center_pos", operator := some "between",
                     value := PyVal.int 2 },
      feedback := "Nie.", next_task := "" } ]

/-- Concrete answers used in the C6 witness. -/
def answersEx : List (String × PyVal) :=
  [("center_pos", PyVal.int 1), ("triangle_quality", PyVal.str "stabil")]

/-- Witness for C6 at concrete answers, rules, and phase "P1". -/
theorem evaluate_coaching_rules_feedback_witness :
    (∃ fb nt, evaluate_coaching_rules answersEx rulesEx "P1" = Except.ok (fb, nt)
      ∧ fb = String.intercalate "\n\n" (((rulesEx.filter
            (fun r => decide (match_rule answersEx r.condition = some true))).map
              (fun r => r.feedback)).filter (fun s => decide (s ≠ ""))))
    ∧ ∀ c : Cond, c.operator ∉ ([some "==", some "!=", some "<=", some ">=",
        some "<", some ">"] : List (Option String)) →
        match_rule answersEx c = some false :=
  evaluate_coaching_rules_feedback answersEx rulesEx "P1"
    (by decide)
    (by
      intro r hr hm
      fin_cases hr <;> exact ⟨_, rfl⟩)

/-! ## src/del_fetch.py : picking the next ERC game -/

/-- The team whose next game the app looks for. -/
def ERC_NAME : String := "ERC Ingolstadt"

/-- A calendar date as compared by Python date objects. -/
structure DateD where
  year : Nat
  month : Nat
  day : Nat
deriving DecidableEq

/-- Gregorian leap year. -/
def isLeap (y : Nat) : Bool :=
  (y % 4 == 0 && y % 100 != 0) || y % 400 == 0

/-- Days in a month, for the range validation strptime performs. -/
def daysInMonth (y m : Nat) : Nat :=
  if m = 2 then (if isLeap y then 29 else 28)
  else if m = 4 ∨ m = 6 ∨ m = 9 ∨ m = 11 then 30 else 31

/-- Split a character list at a separator character. -/
def splitOnChar (c : Char) : List Char → List (List Char)
  | [] => [[]]
  | ch :: rest =>
    if ch = c then [] :: splitOnChar c rest
    else
      match splitOnChar c rest with
      | [] => [[ch]]
      | g :: gs => (ch :: g) :: gs

/-- The value of a decimal digit character, `none` otherwise. -/
def charDigit (c : Char) : Option Nat :=
  if c.isDigit then some (c.toNat - 48) else none

/-- Accumulate a decimal number over digit characters. -/
def digitsToNatAux : List Char → Nat → Option Nat
  | [], acc => some acc
  | c :: cs, acc =>
    match charDigit c with
    | none => none
    | some d => digitsToNatAux cs (acc * 10 + d)

/-- A non-empty all-digit character list as a number (Python `int` on the
digit groups strptime captures). -/
def digitsToNat : List Char → Option Nat
  | [] => none
  | c :: cs => digitsToNatAux (c :: cs) 0

/-- `datetime.strptime(s, "%Y-%m-%d").date()` (src/del_fetch.py line 200):
four year digits, one or two month and day digits, full range validation;
`none` models the ValueError the loop catches. -/
def parse_date_iso (s : String) : Option DateD :=
  match splitOnChar (Char.ofNat 45) s.data with
  | [ys, ms, ds] =>
    match digitsToNat ys, digitsToNat ms, digitsToNat ds with
    | some y, some m, some d =>
      if ys.length = 4 ∧ ms.length ≤ 2 ∧ ds.length ≤ 2
          ∧ 1 ≤ y ∧ 1 ≤ m ∧ m ≤ 12 ∧ 1 ≤ d ∧ d ≤ daysInMonth y m
      then some { year := y, month := m, day := d } else none
    | _, _, _ => none
  | _ => none

/-- Strict order on dates, as Python compares date objects. -/
def dlt (a b : DateD) : Bool :=
  decide (a.year < b.year) ||
    (a.year == b.year &&
      (decide (a.month < b.month) ||
        (a.month == b.month && decide (a.day < b.day))))

/-- The lexicographic sort key (date, time-string) used by the upcoming-game
sort (src/del_fetch.py line 207). -/
def key_le (a b : DateD × String) : Bool :=
  dlt a.1 b.1 || (a.1 == b.1 && str_le a.2 b.2)

/-- A fixture entry of the cached fixtures list
(src/del_fetch.py fetch_fixtures, lines 174-183). -/
structure Game where
  date : String
  time : Option String
  matchday : Option Int
  home : String
  away : String
deriving DecidableEq

/-- Whether ERC Ingolstadt is the home or away team. -/
def is_erc (g : Game) : Bool :=
  g.home == ERC_NAME || g.away == ERC_NAME

/-- One iteration of the loop in src/del_fetch.py pick_next_erc_game
(lines 198-206): skip dates that fail to parse or lie before today and
non-ERC games, keep the tuple (date, time or "99:99", game). -/
def pick_entry (today : DateD) (g : Game) : Option (DateD × String × Game) :=
  match parse_date_iso g.date with
  | none => none
  | some d =>
    if dlt d today then none
    else if is_erc g then some (d, pyOr g.time "99:99", g)
    else none

/-- The sort relation on the kept tuples: compare (date, time) only,
matching Python's key=lambda x: (x[0], x[1]). -/
def fixture_le (a b : DateD × String × Game) : Bool :=
  key_le (a.1, a.2.1) (b.1, b.2.1)

/-- `fixture_le` as a relation for the sort. -/
def FixtureLe (a b : DateD × String × Game) : Prop := fixture_le a b = true

instance : DecidableRel FixtureLe :=
  fun a b => inferInstanceAs (Decidable (fixture_le a b = true))

/-- src/del_fetch.py pick_next_erc_game (lines 195-208): collect the
qualifying tuples, stable-sort by (date, time), return the first game.
Python's sort is stable, and a stable sorted permutation is unique, so the
structurally recursive stable insertion sort produces the same list. -/
def pick_next_erc_game (today : DateD) (fixtures : List Game) : Option Game :=
  ((List.insertionSort FixtureLe
      (fixtures.filterMap (pick_entry today))).head?).map
    (fun x => x.2.2)

/-- `dlt` as a proposition on the date components. -/
theorem dlt_iff (a b : DateD) :
    dlt a b = true ↔
      (a.year < b.year ∨ (a.year = b.year ∧
        (a.month < b.month ∨ (a.month = b.month ∧ a.day < b.day)))) := by
  simp [dlt]

/-- `dlt` is transitive. -/
theorem dlt_trans {a b c : DateD} (h₁ : dlt a b = true) (h₂ : dlt b c = true) :
    dlt a c = true := by
  rw [dlt_iff] at h₁ h₂ ⊢
  omega

/-- Date trichotomy. -/
theorem dlt_trichotomy (a b : DateD) :
    dlt a b = true ∨ a = b ∨ dlt b a = true := by
  rw [dlt_iff, dlt_iff]
  obtain ⟨ay, am, ad⟩ := a
  obtain ⟨by₂, bm, bd⟩ := b
  simp only [DateD.mk.injEq]
  omega

/-- `key_le` as a proposition. -/
theorem key_le_iff (a b : DateD × String) :
    key_le a b = true ↔
      (dlt a.1 b.1 = true ∨ (a.1 = b.1 ∧ str_le a.2 b.2 = true)) := by
  simp [key_le]

/-- `key_le` is reflexive. -/
theorem key_le_refl (a : DateD × String) : key_le a a = true := by
  rw [key_le_iff]
  exact Or.inr ⟨rfl, str_le_refl _⟩

/-- `key_le` is transitive. -/
theorem key_le_trans {a b c : DateD × String} (h₁ : key_le a b = true)
    (h₂ : key_le b c = true) : key_le a c = true := by
  rw [key_le_iff] at h₁ h₂ ⊢
  rcases h₁ with h₁ | ⟨he₁, hl₁⟩
  · rcases h₂ with h₂ | ⟨he₂, hl₂⟩
    · exact Or.inl (dlt_trans h₁ h₂)
    · exact Or.inl (by rw [← he₂]; exact h₁)
  · rcases h₂ with h₂ | ⟨he₂, hl₂⟩
    · exact Or.inl (by rw [he₁]; exact h₂)
    · exact Or.inr ⟨he₁.trans he₂, str_le_trans hl₁ hl₂⟩

/-- `key_le` is total. -/
theorem key_le_total (a b : DateD × String) :
    key_le a b = true ∨ key_le b a = true := by
  rcases dlt_trichotomy a.1 b.1 with h | h | h
  · exact Or.inl ((key_le_iff a b).mpr (Or.inl h))
  · rcases str_le_total a.2 b.2 with hl | hl
    · exact Or.inl ((key_le_iff a b).mpr (Or.inr ⟨h, hl⟩))
    · exact Or.inr ((key_le_iff b a).mpr (Or.inr ⟨h.symm, hl⟩))
  · exact Or.inr ((key_le_iff b a).mpr (Or.inl h))

instance : IsTotal (DateD × String × Game) FixtureLe :=
  ⟨fun a b => by
    rcases key_le_total (a.1, a.2.1) (b.1, b.2.1) with h | h
    · exact Or.inl h
    · exact Or.inr h⟩

instance : IsTrans (DateD × String × Game) FixtureLe :=
  ⟨fun _ _ _ h₁ h₂ => key_le_trans h₁ h₂⟩

/-- Characterization of a kept loop entry. -/
theorem pick_entry_eq_some (today : DateD) (g : Game)
    (x : DateD × String × Game) :
    pick_entry today g = some x ↔
      ∃ d, parse_date_iso g.date = some d ∧ dlt d today = false
        ∧ is_erc g = true ∧ x = (d, pyOr g.time "99:99", g) := by
  constructor
  · intro hx
    cases hd : parse_date_iso g.date with
    | none => simp [pick_entry, hd] at hx
    | some d =>
      cases hb : dlt d today with
      | true => simp [pick_entry, hd, hb] at hx
      | false =>
        cases he : is_erc g with
        | false => simp [pick_entry, hd, hb, he] at hx
        | true =>
          simp [pick_entry, hd, hb, he] at hx
          exact ⟨d, rfl, hb, rfl, hx.symm⟩
  · rintro ⟨d₂, hd₂, hb₂, he₂, hx⟩
    simp [pick_entry, hd₂, hb₂, he₂, hx]

/-- C9: pick_next_erc_game returns none iff no fixture has a parseable date
on or after today with ERC Ingolstadt as home or away team; otherwise it
returns such a game minimal in the lexicographic (date, time) order, a
missing time counting as "99:99" — so games of today are included and games
strictly before today are excluded. -/
theorem pick_next_erc_game_spec (today : DateD) (fixtures : List Game) :
    (pick_next_erc_game today fixtures = none ↔
      ∀ g ∈ fixtures, ∀ d, parse_date_iso g.date = some d →
        dlt d today = true ∨ is_erc g = false)
    ∧ (∀ g, pick_next_erc_game today fixtures = some g →
        g ∈ fixtures ∧ is_erc g = true
        ∧ ∃ d, parse_date_iso g.date = some d ∧ dlt d today = false
          ∧ ∀ g₂ ∈ fixtures, ∀ d₂, parse_date_iso g₂.date = some d₂ →
              dlt d₂ today = false → is_erc g₂ = true →
              key_le (d, pyOr g.time "99:99") (d₂, pyOr g₂.time "99:99") = true) := by
  constructor
  · constructor
    · intro hnone g hg d hd
      unfold pick_next_erc_game at hnone
      cases hs : List.insertionSort FixtureLe (fixtures.filterMap (pick_entry today)) with
      | cons x tl =>
        rw [hs] at hnone
        simp at hnone
      | nil =>
        have hperm := List.perm_insertionSort FixtureLe
          (fixtures.filterMap (pick_entry today))
        rw [hs] at hperm
        have hu : fixtures.filterMap (pick_entry today) = [] :=
          (hperm.symm).eq_nil
        have hnil : pick_entry today g = none :=
          List.filterMap_eq_nil_iff.mp hu g hg
        cases hb : dlt d today with
        | true => exact Or.inl rfl
        | false =>
          cases he : is_erc g with
          | false => exact Or.inr rfl
          | true =>
            simp [pick_entry, hd, hb, he] at hnil
    · intro hall
      have hu : fixtures.filterMap (pick_entry today) = [] := by
        rw [List.filterMap_eq_nil_iff]
        intro g hg
        cases hd : parse_date_iso g.date with
        | none => simp [pick_entry, hd]
        | some d =>
          rcases hall g hg d hd with h | h
          · simp [pick_entry, hd, h]
          · cases hb : dlt d today <;> simp [pick_entry, hd, h, hb]
      unfold pick_next_erc_game
      rw [hu]
      rfl
  · intro g hg
    unfold pick_next_erc_game at hg
    cases hs : List.insertionSort FixtureLe (fixtures.filterMap (pick_entry today)) with
    | nil =>
      rw [hs] at hg
      simp at hg
    | cons x tl =>
      rw [hs] at hg
      have hgx : x.2.2 = g := by simpa using hg
      have hxmem : x ∈ List.insertionSort FixtureLe
          (fixtures.filterMap (pick_entry today)) := by
        rw [hs]
        exact List.mem_cons_self x tl
      rw [List.mem_insertionSort] at hxmem
      obtain ⟨g₀, hg₀mem, hg₀⟩ := List.mem_filterMap.mp hxmem
      obtain ⟨d, hd, hdlt, herc, hx⟩ := (pick_entry_eq_some today g₀ x).mp hg₀
      subst hx
      have hgg : g₀ = g := hgx
      subst hgg
      refine ⟨hg₀mem, herc, d, hd, hdlt, ?_⟩
      intro g₂ hg₂ d₂ hd₂ hdlt₂ herc₂
      have h₂ : pick_entry today g₂ = some (d₂, pyOr g₂.time "99:99", g₂) := by
        rw [pick_entry_eq_some]
        exact ⟨d₂, hd₂, hdlt₂, herc₂, rfl⟩
      have hmem₂ : (d₂, pyOr g₂.time "99:99", g₂) ∈
          fixtures.filterMap (pick_entry today) :=
        List.mem_filterMap.mpr ⟨g₂, hg₂, h₂⟩
      have hmem₂s : (d₂, pyOr g₂.time "99:99", g₂) ∈
          List.insertionSort FixtureLe (fixtures.filterMap (pick_entry today)) :=
        (List.mem_insertionSort _).mpr hmem₂
      rw [hs] at hmem₂s
      rcases List.mem_cons.mp hmem₂s with he | htl
      · have h1 : d₂ = d := congrArg (fun y => y.1) he
        have h2 : pyOr g₂.time "99:99" = pyOr g₀.time "99:99" :=
          congrArg (fun y => y.2.1) he
        rw [h1, h2]
        exact key_le_refl _
      · have hsorted := List.sorted_insertionSort FixtureLe
          (fixtures.filterMap (pick_entry today))
        rw [hs] at hsorted
        exact (List.pairwise_cons.mp hsorted).1 _ htl

/-- Today used in the C9 witness. -/
def todayEx : DateD := { year := 2026, month := 1, day := 1 }

/-- A past ERC game (excluded). -/
def gPast : Game :=
  { date := "2025-12-28", time := some "19:30", matchday := some 30,
    home := "ERC Ingolstadt", away := "Kölner Haie" }

/-- The next ERC game: same date as gLater but with a time, so it sorts
before the missing-time game. -/
def gNext : Game :=
  { date := "2026-01-02", time := some "19:30", matchday := some 33,
    home := "Adler Mannheim", away := "ERC Ingolstadt" }

/-- An ERC game on the same date with no time: treated as "99:99". -/
def gLater : Game :=
  { date := "2026-01-02", time := none, matchday := none,
    home := "ERC Ingolstadt", away := "Eisbären Berlin" }

/-- A non-ERC game (excluded). -/
def gOther : Game :=
  { date := "2026-01-01", time := some "14:00", matchday := some 32,
    home := "Kölner Haie", away := "Adler Mannheim" }

/-- Fixtures used in the C9 witness. -/
def fixturesEx : List Game := [gPast, gLater, gNext, gOther]

/-- Witness for C9: on concrete fixtures the picked game is the timed game
of the earliest upcoming ERC date, minimal in the (date, time) order. -/
theorem pick_next_erc_game_spec_witness :
    gNext ∈ fixturesEx ∧ is_erc gNext = true
    ∧ ∃ d, parse_date_iso gNext.date = some d ∧ dlt d todayEx = false
      ∧ ∀ g₂ ∈ fixturesEx, ∀ d₂, parse_date_iso g₂.date = some d₂ →
          dlt d₂ todayEx = false → is_erc g₂ = true →
          key_le (d, pyOr gNext.time "99:99") (d₂, pyOr g₂.time "99:99") = true :=
  (pick_next_erc_game_spec todayEx fixturesEx).2 gNext (by decide)

/-! ## src/academy/sessions.py : get_active_session -/

/-- src/academy/sessions.py get_active_session (lines 129-135): the first
state-"active" session of the user's sessions sorted by created_at
descending. -/
def get_active_session (dirExists : Bool) (files : List (Option Session))
    (user : String) : Option Session :=
  (list_sessions dirExists files (some user) none).find?
    (fun s => s.state == "active")

/-- created_desc is reflexive. -/
theorem created_desc_refl (a : Session) : created_desc a a = true :=
  str_le_refl a.created_at

/-- created_desc is transitive. -/
theorem created_desc_trans {a b c : Session}
    (h₁ : created_desc a b = true) (h₂ : created_desc b c = true) :
    created_desc a c = true :=
  str_le_trans h₂ h₁

/-- created_desc is total. -/
theorem created_desc_total (a b : Session) :
    (created_desc a b || created_desc b a) = true := by
  rcases str_le_total b.created_at a.created_at with h | h <;>
    simp [created_desc, h]

/-- When the user filter is truthy, a session passes the list_sessions
filter iff its user matches. -/
theorem session_keep_user (user : String) (hu : user ≠ "") (s : Session) :
    session_keep (some user) none s = (s.user == user) := by
  simp only [session_keep, truthy, decide_eq_true_eq]
  by_cases h : s.user = user <;> simp [h, hu]

/-- The first match of find? on a pairwise-descending list is maximal among
the matching elements. -/
theorem find?_max_of_pairwise {α : Type} (r : α → α → Bool) (p : α → Bool)
    (hrefl : ∀ a, r a a = true) :
    ∀ l : List α, l.Pairwise (fun a b => r a b = true) →
      ∀ s, l.find? p = some s → ∀ x ∈ l, p x = true → r s x = true := by
  intro l
  induction l with
  | nil =>
    intro _ s hs
    simp at hs
  | cons a t ih =>
    intro hp s hs x hx hpx
    rw [List.pairwise_cons] at hp
    cases hpa : p a with
    | true =>
      rw [List.find?_cons_of_pos t hpa] at hs
      have hsa : a = s := Option.some.inj hs
      subst hsa
      rcases List.mem_cons.mp hx with he | ht
      · rw [he]
        exact hrefl _
      · exact hp.1 x ht
    | false =>
      rw [List.find?_cons_of_neg t (by simp [hpa])] at hs
      rcases List.mem_cons.mp hx with he | ht
      · rw [he] at hpx
        rw [hpx] at hpa
        cases hpa
      · exact ih hp.2 s hs x ht hpx

/-- A stored session file with the given id, user, state and created_at, as
list_sessions would read it from the sessions directory. -/
def mkStoredSession (sid user state created : String) : Session :=
  { session_id := sid
    user := user
    game := { date := "2026-01-02", league := "DEL",
              home := "ERC Ingolstadt", away := "Adler Mannheim" }
    module_id := "A1"
    drill_id := "A1_D1"
    pre := { goal := "", confidence := 3, timestamp := created }
    checkins := []
    post := none
    state := state
    created_at := created
    updated_at := created }

/-- A session of another user, used in the C10 counterexample. -/
def sBob : Session :=
  mkStoredSession "s_bob" "bob" "active" "2026-01-03T09:00:00"

/-- Counterexample for C10 as stated: with the empty user name the
list_sessions user filter is falsy and skipped, so get_active_session
returns a session whose user differs from the requested user. -/
theorem get_active_session_counterexample :
    get_active_session true [some sBob] "" = some sBob
    ∧ sBob.user ≠ "" := by
  constructor
  · rfl
  · decide

/-- C10 (amended: for a non-empty user): get_active_session returns only a
session of that user in state "active", with created_at greatest among the
user's stored active sessions, and returns none exactly when the directory
is missing or the user has no stored active session. -/
theorem get_active_session_spec (dirExists : Bool)
    (files : List (Option Session)) (user : String) (hu : user ≠ "") :
    (∀ s, get_active_session dirExists files user = some s →
        s.user = user ∧ s.state = "active" ∧ s ∈ files.filterMap id
        ∧ ∀ s₂ ∈ files.filterMap id, s₂.user = user → s₂.state = "active" →
            str_le s₂.created_at s.created_at = true)
    ∧ (get_active_session dirExists files user = none ↔
        (dirExists = false ∨
          ∀ s ∈ files.filterMap id, s.user = user → s.state ≠ "active")) := by
  cases dirExists with
  | false =>
    constructor
    · intro s hs
      simp [get_active_session, list_sessions] at hs
    · constructor
      · intro _
        exact Or.inl rfl
      · intro _
        simp [get_active_session, list_sessions]
  | true =>
    have hfeq : (files.filterMap id).filter (session_keep (some user) none)
        = (files.filterMap id).filter (fun s => s.user == user) :=
      List.filter_congr (fun x _ => session_keep_user user hu x)
    have hlist : list_sessions true files (some user) none
        = List.insertionSort CreatedDesc
            ((files.filterMap id).filter (fun s => s.user == user)) := by
      simp only [list_sessions, if_true, hfeq]
    constructor
    · intro s hs
      rw [get_active_session, hlist] at hs
      have hps := List.find?_some hs
      have hmem := List.mem_of_find?_eq_some hs
      rw [List.mem_insertionSort] at hmem
      have hmf := List.mem_filter.mp hmem
      refine ⟨eq_of_beq hmf.2, eq_of_beq hps, hmf.1, ?_⟩
      intro s₂ hs₂ hu₂ hst₂
      have hmem₂ : s₂ ∈ (files.filterMap id).filter (fun s => s.user == user) :=
        List.mem_filter.mpr ⟨hs₂, by simp [hu₂]⟩
      have hmem₂s : s₂ ∈ List.insertionSort CreatedDesc
          ((files.filterMap id).filter (fun s => s.user == user)) :=
        (List.mem_insertionSort _).mpr hmem₂
      have hpair : (List.insertionSort CreatedDesc
          ((files.filterMap id).filter (fun s => s.user == user))).Pairwise
            (fun a b => created_desc a b = true) :=
        List.sorted_insertionSort CreatedDesc
          ((files.filterMap id).filter (fun s => s.user == user))
      have hmax := find?_max_of_pairwise created_desc
        (fun s => s.state == "active") created_desc_refl _ hpair s hs
        s₂ hmem₂s (by simp [hst₂])
      simpa [created_desc] using hmax
    · constructor
      · intro hn
        refine Or.inr ?_
        intro s hsmem hsu hsstate
        rw [get_active_session, hlist, List.find?_eq_none] at hn
        have hsf : s ∈ (files.filterMap id).filter (fun s => s.user == user) :=
          List.mem_filter.mpr ⟨hsmem, by simp [hsu]⟩
        have hns := hn s ((List.mem_insertionSort _).mpr hsf)
        exact hns (by simp [hsstate])
      · intro h
        rcases h with h | h
        · simp at h
        · rw [get_active_session, hlist, List.find?_eq_none]
          intro x hxmem hpx
          have hxf := List.mem_filter.mp ((List.mem_insertionSort _).mp hxmem)
          exact h x hxf.1 (eq_of_beq hxf.2) (eq_of_beq hpx)

/-- An older active session of the C10 witness user. -/
def sOld : Session :=
  mkStoredSession "s_old" "otso" "active" "2026-01-01T10:00:00"

/-- The most recent active session of the C10 witness user. -/
def sNew : Session :=
  mkStoredSession "s_new" "otso" "active" "2026-01-02T09:00:00"

/-- A completed session of the C10 witness user with a later created_at:
skipped because its state is "done". -/
def sDone : Session :=
  mkStoredSession "s_done" "otso" "done" "2026-01-02T22:00:00"

/-- The session directory of the C10 witness. -/
def filesEx : List (Option Session) :=
  [some sOld, some sDone, some sNew, some sBob]

/-- Witness for C10: for user "otso" the returned session is otso's latest
active one; the done session and the other user's session are passed over. -/
theorem get_active_session_spec_witness :
    sNew.user = "otso" ∧ sNew.state = "active"
    ∧ sNew ∈ filesEx.filterMap id
    ∧ ∀ s₂ ∈ filesEx.filterMap id, s₂.user = "otso" → s₂.state = "active" →
        str_le s₂.created_at sNew.created_at = true :=
  (get_active_session_spec true filesEx "otso" (by decide)).1 sNew (by decide)

/-! ## src/app.py : the manual refresh handler -/

/-- src/app.py refresh (lines 558-582), over the outcome of each scrape:
fetch_table and fetch_fixtures run outside any try/except, so their
exceptions propagate; the two fetch_team_recent_games calls are caught and
turned into warning strings. After a successful fetch_fixtures the fixtures
cache read back by read_cache holds exactly the fetched fixtures list,
which pick_next_erc_game consumes to choose the opponent. -/
def refresh (tableR : Except String Unit)
    (fixturesR : Except String (List Game))
    (recentR : String → Except String Unit) (today : DateD) :
    Except String (List String) :=
  match tableR with
  | Except.error e => Except.error e
  | Except.ok _ =>
    match fixturesR with
    | Except.error e => Except.error e
    | Except.ok fxs =>
      let w₁ : List String :=
        match recentR ERC_NAME with
        | Except.ok _ => []
        | Except.error e => ["Konnte Recent Games für ERC nicht laden: " ++ e]
      let w₂ : List String :=
        match pick_next_erc_game today fxs with
        | none => []
        | some g =>
          let opponent := if g.home = ERC_NAME then g.away else g.home
          match recentR opponent with
          | Except.ok _ => []
          | Except.error e =>
            ["Konnte Recent Games für " ++ opponent ++ " nicht laden: " ++ e]
      Except.ok (w₁ ++ w₂)

/-- Counterexample for C2 as stated: a failing standings-table fetch is not
caught inside refresh — the exception propagates instead of becoming a
warning. -/
theorem refresh_counterexample :
    refresh (Except.error "HTTPError: 503") (Except.ok [])
      (fun _ => Except.ok ()) { year := 2026, month := 1, day := 1 }
      = Except.error "HTTPError: 503" := rfl

/-- C2 (amended): only the recent-games fetches are caught and shown as
warnings — once fetch_table and fetch_fixtures succeed, refresh never
propagates an exception and reports each failing recent-games fetch as a
warning (the ERC fetch at src/app.py lines 564-567 and the opponent fetch at
lines 577-580); a failure of fetch_table or of fetch_fixtures propagates out
of refresh. -/
theorem refresh_error_handling (fxs : List Game)
    (recentR : String → Except String Unit) (today : DateD) :
    (∃ ws, refresh (Except.ok ()) (Except.ok fxs) recentR today = Except.ok ws
      ∧ (∀ e, recentR ERC_NAME = Except.error e →
          ("Konnte Recent Games für ERC nicht laden: " ++ e) ∈ ws)
      ∧ (∀ g e, pick_next_erc_game today fxs = some g →
          recentR (if g.home = ERC_NAME then g.away else g.home)
            = Except.error e →
          ("Konnte Recent Games für "
            ++ (if g.home = ERC_NAME then g.away else g.home)
            ++ " nicht laden: " ++ e) ∈ ws))
    ∧ (∀ e, refresh (Except.error e) (Except.ok fxs) recentR today
        = Except.error e)
    ∧ (∀ e, refresh (Except.ok ()) (Except.error e) recentR today
        = Except.error e) := by
  refine ⟨⟨_, rfl, ?_, ?_⟩, fun e => rfl, fun e => rfl⟩
  · intro e he
    simp [he]
  · intro g e hg he
    simp [hg, he]

/-- Witness for C2's amended claim: with both recent-games scrapes failing
on a fixture list that has an upcoming ERC game, refresh still returns ok
and carries both warning messages. -/
theorem refresh_error_handling_witness :
    ∃ ws, refresh (Except.ok ()) (Except.ok [gNext])
        (fun _ => Except.error "timeout") todayEx = Except.ok ws
      ∧ ("Konnte Recent Games für ERC nicht laden: " ++ "timeout") ∈ ws
      ∧ ("Konnte Recent Games für "
          ++ (if gNext.home = ERC_NAME then gNext.away else gNext.home)
          ++ " nicht laden: " ++ "timeout") ∈ ws := by
  obtain ⟨ws, hok, h₁, h₂⟩ := (refresh_error_handling [gNext]
    (fun _ => Except.error "timeout") todayEx).1
  exact ⟨ws, hok, h₁ "timeout" rfl, h₂ gNext "timeout" (by decide) rfl⟩

end MatchHub
